import Mathlib

/-!
Verification of the filing-acquisition and structured-extraction pipeline of the
ActivistIntel repository.  The definitions below are a shallow embedding of
`src/tools/ade_extractor.py` (class `LandingAISDKExtractor`) and
`src/tools/sec_fetcher.py` (class `SECFetcher`).  Python dictionaries are
modelled as association lists with insertion-order update semantics; Python
floats are modelled as exact rationals; network and extraction-service calls
are modelled as explicit outcome parameters (`Except` / oracle functions), so
that every theorem quantifies over all possible behaviours of the external
services.
-/

namespace ActivistIntel

/-! ### Data model of `ade_extractor.py` -/

/-- The fixed financial record shape produced by `extract_10k_data` /
`_get_default_10k_data` (keys of the `'10k'` dictionary). -/
structure FinancialRecord where
  revenue_current : ℚ
  revenue_prior_1 : ℚ
  revenue_prior_2 : ℚ
  operating_income : ℚ
  net_income_current : ℚ
  net_income_prior_1 : ℚ
  total_assets : ℚ
  total_liabilities : ℚ
  shareholders_equity : ℚ
  cash_equivalents : ℚ
  total_debt : ℚ
  shares_outstanding : ℚ
deriving DecidableEq, Repr

/-- A raw board-member dictionary as returned by the extraction service (and as
stored verbatim in the governance record).  Every key may be absent, which is
why each field is an `Option`; `extract_proxy_data` reads `tenure_years` with
`m.get('tenure_years', 0)`.  The demo data also carries a `role` key. -/
structure BoardMember where
  name : Option String
  role : Option String
  independent : Option Bool
  tenure_years : Option ℚ
deriving DecidableEq, Repr

/-- The governance record shape produced by `extract_proxy_data` /
`_get_default_proxy_data` (keys of the `'proxy'` dictionary). -/
structure GovernanceRecord where
  ceo_total_comp_current : ℚ
  ceo_total_comp_prior_1 : ℚ
  ceo_base_salary : ℚ
  ceo_bonus : ℚ
  ceo_stock_awards : ℚ
  say_on_pay_approval_pct : ℚ
  board_size : ℚ
  independent_directors : ℚ
  average_director_tenure : ℚ
  board_members : List BoardMember
deriving DecidableEq, Repr

/-- The event-list record (value of the `'8k'` key). -/
structure EventRecord where
  recent_events : List String
deriving DecidableEq, Repr

/-- A value stored at a top-level key of the merged pipeline dictionary. -/
inductive RecordVal where
  | fin (d : FinancialRecord)
  | gov (d : GovernanceRecord)
  | ev (d : EventRecord)
deriving DecidableEq, Repr

/-- The merged pipeline output: a Python dict from top-level keys
(`'10k'`, `'proxy'`, `'8k'`) to records, modelled as an association list in
insertion order. -/
abbrev DataDict := List (String × RecordVal)

/-- Python `dict` assignment `d[k] = v`: replace in place when the key exists,
append at the end otherwise. -/
def dictUpdate {α : Type} (d : List (String × α)) (k : String) (v : α) :
    List (String × α) :=
  if (d.lookup k).isSome then
    d.map (fun p => if p.1 = k then (k, v) else p)
  else d ++ [(k, v)]

/-- `_get_default_10k_data`: the all-zero financial record. -/
def get_default_10k_data : FinancialRecord :=
  { revenue_current := 0
    revenue_prior_1 := 0
    revenue_prior_2 := 0
    operating_income := 0
    net_income_current := 0
    net_income_prior_1 := 0
    total_assets := 0
    total_liabilities := 0
    shareholders_equity := 0
    cash_equivalents := 0
    total_debt := 0
    shares_outstanding := 0 }

/-- `_get_default_proxy_data`: the all-zero governance record. -/
def get_default_proxy_data : GovernanceRecord :=
  { ceo_total_comp_current := 0
    ceo_total_comp_prior_1 := 0
    ceo_base_salary := 0
    ceo_bonus := 0
    ceo_stock_awards := 0
    say_on_pay_approval_pct := 0
    board_size := 0
    independent_directors := 0
    average_director_tenure := 0
    board_members := [] }

/-- The `'10k'` entry of the `'AAPL'` demo company in `_get_complete_demo_data`. -/
def demo_10k : FinancialRecord :=
  { revenue_current := 383285000000
    revenue_prior_1 := 394328000000
    revenue_prior_2 := 365817000000
    operating_income := 114301000000
    net_income_current := 96995000000
    net_income_prior_1 := 99803000000
    total_assets := 352755000000
    total_liabilities := 290437000000
    shareholders_equity := 62146000000
    cash_equivalents := 29965000000
    total_debt := 111088000000
    shares_outstanding := 15441880000 }

/-- The `'proxy'` entry of the `'AAPL'` demo company. -/
def demo_proxy : GovernanceRecord :=
  { ceo_total_comp_current := 63209230
    ceo_total_comp_prior_1 := 99420000
    ceo_base_salary := 3000000
    ceo_bonus := 0
    ceo_stock_awards := 52000000
    say_on_pay_approval_pct := 477 / 5
    board_size := 8
    independent_directors := 7
    average_director_tenure := 25 / 2
    board_members :=
      [{ name := some "Tim Cook", role := some "CEO",
         independent := some false, tenure_years := some 12 }] }

/-- The `'8k'` entry of the `'AAPL'` demo company. -/
def demo_8k : EventRecord :=
  ⟨["Q4 earnings release", "Product announcement"]⟩

/-- The full `'AAPL'` value of the `demo_companies` dictionary. -/
def demo_aapl : DataDict :=
  [("10k", .fin demo_10k), ("proxy", .gov demo_proxy), ("8k", .ev demo_8k)]

/-- The `demo_companies` dictionary of `_get_complete_demo_data` (a single
entry, keyed `'AAPL'`). -/
def demo_companies : List (String × DataDict) := [("AAPL", demo_aapl)]

/-- `_get_complete_demo_data`: `demo_companies.get(self.current_ticker or
'AAPL', demo_companies['AAPL'])`.  `current_ticker` is the ticker scraped from
the first document's file name (or `None` when none was found). -/
def get_complete_demo_data (current_ticker : Option String) : DataDict :=
  (demo_companies.lookup (current_ticker.getD "AAPL")).getD demo_aapl

/-- A single document dictionary inside a filing category, as consumed by the
extractor (`filing.get('date', ...)`, `filing['path']`; either key may be
missing in an arbitrary dict). -/
structure FilingDoc where
  path : Option String
  date : Option String
deriving DecidableEq, Repr

/-- The `filings` argument of `process_all_documents`: a dict from filing-type
name (`'10-K'`, `'DEF 14A'`, `'8-K'`, ...) to a list of document dicts. -/
abbrev Filings := List (String × List FilingDoc)

/-- The Python truth test `k in filings and filings[k]` used to decide whether
a category contributes an extraction task. -/
def hasDocs (filings : Filings) (k : String) : Bool :=
  match filings.lookup k with
  | some (_ :: _) => true
  | _ => false

/-- Outcome of one extraction task as observed by
`asyncio.gather(*tasks, return_exceptions=True)`: either the dictionary value
the task computed, or the exception it raised. -/
inductive TaskOutcome (α : Type) where
  | ok (val : α)
  | exn (msg : String)
deriving DecidableEq, Repr

/-- One element of the `results` list of `process_all_documents`: a dict or an
exception object. -/
inductive GatherItem where
  | dict (d : DataDict)
  | exn (msg : String)

/-- The merge loop of `process_all_documents`: start from `{}`; for each
result that is a dict, `combined.update(result)`; exceptions are skipped. -/
def combineResults (results : List GatherItem) : DataDict :=
  results.foldl
    (fun acc r =>
      match r with
      | .dict kvs => kvs.foldl (fun a kv => dictUpdate a kv.1 kv.2) acc
      | .exn _ => acc)
    []

/-- `_ensure_required_fields`: force-fill the `'10k'`, `'proxy'` and `'8k'`
keys when absent. -/
def ensure_required_fields (data : DataDict) : DataDict :=
  let d1 := if (data.lookup "10k").isSome then data
            else data ++ [("10k", .fin get_default_10k_data)]
  let d2 := if (d1.lookup "proxy").isSome then d1
            else d1 ++ [("proxy", .gov get_default_proxy_data)]
  if (d2.lookup "8k").isSome then d2
  else d2 ++ [("8k", .ev ⟨[]⟩)]

/-- The gather item produced by the 10-K task: `extract_10k_data` returns a
single-key dict `{'10k': ...}` on every control path (see
`extract_10k_shape`), so an `ok` outcome is that dict and an `exn` outcome is
the raised exception. -/
def taskItem10k : TaskOutcome FinancialRecord → GatherItem
  | .ok r => .dict [("10k", .fin r)]
  | .exn m => .exn m

/-- The gather item produced by the DEF 14A task (`extract_proxy_data` returns
a single-key dict `{'proxy': ...}` on every path, see `extract_proxy_shape`). -/
def taskItemProxy : TaskOutcome GovernanceRecord → GatherItem
  | .ok r => .dict [("proxy", .gov r)]
  | .exn m => .exn m

/-- The gather item produced by the 8-K task (`extract_8k_data` returns a
single-key dict `{'8k': ...}` on every path). -/
def taskItem8k : TaskOutcome EventRecord → GatherItem
  | .ok r => .dict [("8k", .ev r)]
  | .exn m => .exn m

/-- `process_all_documents`.  `hasClient` models `self.client` being non-null;
`current_ticker` is the ticker scraped from the document paths before the
demo-mode check; the three `TaskOutcome` arguments are the outcomes of the
three possible concurrent extraction tasks (only the tasks of non-empty
categories are launched and gathered, in the fixed order 10-K, DEF 14A, 8-K). -/
def process_all_documents (hasClient : Bool) (current_ticker : Option String)
    (filings : Filings)
    (out10k : TaskOutcome FinancialRecord)
    (outProxy : TaskOutcome GovernanceRecord)
    (out8k : TaskOutcome EventRecord) : DataDict :=
  if !hasClient then get_complete_demo_data current_ticker
  else
    let tasks : List GatherItem :=
      (if hasDocs filings "10-K" then [taskItem10k out10k] else []) ++
      (if hasDocs filings "DEF 14A" then [taskItemProxy outProxy] else []) ++
      (if hasDocs filings "8-K" then [taskItem8k out8k] else [])
    if tasks.isEmpty then get_complete_demo_data current_ticker
    else ensure_required_fields (combineResults tasks)

/-- The test `file_path.lower().endswith('.html')` deciding whether the HTML
to markdown conversion runs (ASCII casefolding, which covers every path the
fetcher produces). -/
def lowerEndsWithHtml (p : String) : Bool :=
  ".html".data.isSuffixOf (p.data.map Char.toLower)

/-- Outcome of the `self.client.extract(...)` call: the `extraction` mapping
on success, or a raised exception. -/
inductive SvcResult (α : Type) where
  | ok (extraction : α)
  | err (msg : String)

/-- The `extraction` mapping returned by the service for the 10-K financial
schema; every field read via `extraction.get(key, 0)`, so each may be absent. -/
structure FinExtraction where
  revenue_current : Option ℚ
  revenue_prior_1 : Option ℚ
  operating_income : Option ℚ
  net_income_current : Option ℚ
  total_assets : Option ℚ
  total_liabilities : Option ℚ
  shareholders_equity : Option ℚ
  cash_equivalents : Option ℚ
  total_debt : Option ℚ
  shares_outstanding : Option ℚ
deriving DecidableEq, Repr

/-- The success-path dictionary literal of `extract_10k_data`: map each service
field with default `0`, and hard-code `revenue_prior_2` and
`net_income_prior_1` to `0`. -/
def fin_from_extraction (e : FinExtraction) : FinancialRecord :=
  { revenue_current := e.revenue_current.getD 0
    revenue_prior_1 := e.revenue_prior_1.getD 0
    revenue_prior_2 := 0
    operating_income := e.operating_income.getD 0
    net_income_current := e.net_income_current.getD 0
    net_income_prior_1 := 0
    total_assets := e.total_assets.getD 0
    total_liabilities := e.total_liabilities.getD 0
    shareholders_equity := e.shareholders_equity.getD 0
    cash_equivalents := e.cash_equivalents.getD 0
    total_debt := e.total_debt.getD 0
    shares_outstanding := e.shares_outstanding.getD 0 }

/-- `extract_10k_data`.  `htmlToMarkdown` models `_html_to_markdown` (returns
the markdown path, or `none` on a conversion failure); `svc` models the
`client.extract` call.  Reading `filing['path']` on a dict without that key
raises `KeyError`, which the handler turns into the default record. -/
def extract_10k_data (hasClient : Bool) (filings : List FilingDoc)
    (htmlToMarkdown : String → Option String)
    (svc : SvcResult FinExtraction) : DataDict :=
  match filings with
  | [] => [("10k", .fin get_default_10k_data)]
  | filing :: _ =>
    if !hasClient then [("10k", .fin get_default_10k_data)]
    else
      match filing.path with
      | none => [("10k", .fin get_default_10k_data)]
      | some file_path =>
        if lowerEndsWithHtml file_path then
          match htmlToMarkdown file_path with
          | none => [("10k", .fin get_default_10k_data)]
          | some _ =>
            match svc with
            | .ok e => [("10k", .fin (fin_from_extraction e))]
            | .err _ => [("10k", .fin get_default_10k_data)]
        else
          match svc with
          | .ok e => [("10k", .fin (fin_from_extraction e))]
          | .err _ => [("10k", .fin get_default_10k_data)]

/-- The `extraction` mapping returned by the service for the proxy governance
schema. -/
structure ProxyExtraction where
  ceo_total_comp : Option ℚ
  ceo_base_salary : Option ℚ
  say_on_pay_approval_pct : Option ℚ
  board_size : Option ℚ
  independent_directors : Option ℚ
  board_members : Option (List BoardMember)
deriving DecidableEq, Repr

/-- The success-path record of `extract_proxy_data`: field defaults `0`, the
raw `board_members` list stored verbatim, and `average_director_tenure`
computed as `sum(tenures) / len(tenures)` over
`[m.get('tenure_years', 0) for m in board_members]` (0 when the list is
empty). -/
def proxy_from_extraction (e : ProxyExtraction) : GovernanceRecord :=
  let board_members := e.board_members.getD []
  let avg_tenure : ℚ :=
    if !board_members.isEmpty then
      let tenures := board_members.map (fun m => m.tenure_years.getD 0)
      if !tenures.isEmpty then tenures.sum / (tenures.length : ℚ) else 0
    else 0
  { ceo_total_comp_current := e.ceo_total_comp.getD 0
    ceo_total_comp_prior_1 := 0
    ceo_base_salary := e.ceo_base_salary.getD 0
    ceo_bonus := 0
    ceo_stock_awards := 0
    say_on_pay_approval_pct := e.say_on_pay_approval_pct.getD 0
    board_size := e.board_size.getD 0
    independent_directors := e.independent_directors.getD 0
    average_director_tenure := avg_tenure
    board_members := board_members }

/-- `extract_proxy_data`, with the same environment parameters as
`extract_10k_data`. -/
def extract_proxy_data (hasClient : Bool) (filings : List FilingDoc)
    (htmlToMarkdown : String → Option String)
    (svc : SvcResult ProxyExtraction) : DataDict :=
  match filings with
  | [] => [("proxy", .gov get_default_proxy_data)]
  | filing :: _ =>
    if !hasClient then [("proxy", .gov get_default_proxy_data)]
    else
      match filing.path with
      | none => [("proxy", .gov get_default_proxy_data)]
      | some file_path =>
        if lowerEndsWithHtml file_path then
          match htmlToMarkdown file_path with
          | none => [("proxy", .gov get_default_proxy_data)]
          | some _ =>
            match svc with
            | .ok e => [("proxy", .gov (proxy_from_extraction e))]
            | .err _ => [("proxy", .gov get_default_proxy_data)]
        else
          match svc with
          | .ok e => [("proxy", .gov (proxy_from_extraction e))]
          | .err _ => [("proxy", .gov get_default_proxy_data)]

/-- `extract_8k_data`: a metadata-only extraction over the three most recent
8-K documents (`filing.get('date', 'unknown date')`). -/
def extract_8k_data (filings : List FilingDoc) : DataDict :=
  [("8k", .ev ⟨(filings.take 3).map
      (fun f => "Material event on " ++ f.date.getD "unknown date")⟩)]

/-! ### String helpers for the model of `sec_fetcher.py`

Python string primitives (`split`, comparison, `upper`, `zfill`) are modelled
over `List Char` with structural recursion so that every concrete instance
evaluates inside the kernel. -/

/-- Python code-point comparison of strings: `xs < ys` lexicographically. -/
def strLtB : List Char → List Char → Bool
  | [], [] => false
  | [], _ :: _ => true
  | _ :: _, [] => false
  | a :: as, b :: bs =>
    if a.toNat < b.toNat then true
    else if b.toNat < a.toNat then false
    else strLtB as bs

/-- Python `s.split(c)` for a one-character separator. -/
def splitOnChar (c : Char) : List Char → List (List Char)
  | [] => [[]]
  | x :: xs =>
    let r := splitOnChar c xs
    if x = c then [] :: r
    else
      match r with
      | [] => [[x]]
      | h :: t => (x :: h) :: t

/-- Numeric value of a digit string. -/
def digitsToNat (ds : List Char) : Nat :=
  ds.foldl (fun n c => n * 10 + (c.toNat - 48)) 0

/-- If `sep` is a prefix of `xs`, the remainder after it. -/
def stripPrefixChars : List Char → List Char → Option (List Char)
  | [], xs => some xs
  | _ :: _, [] => none
  | s :: ss, x :: xs => if s = x then stripPrefixChars ss xs else none

/-- The text after the last occurrence of `sep` in `xs` (`none` when `sep`
does not occur): the value of Python `text.split(sep)[-1]` whenever `sep`
occurs in `text`. -/
def afterLastSep (sep : List Char) : List Char → Option (List Char)
  | [] => none
  | x :: xs =>
    match afterLastSep sep xs with
    | some r => some r
    | none => stripPrefixChars sep (x :: xs)

/-- Python `s.upper()` (ASCII range, which covers all filing-type labels). -/
def upperAscii (s : String) : String :=
  String.mk (s.data.map Char.toUpper)

/-- Python `s.zfill(width)` for the non-negative strings it is applied to. -/
def zfill (s : String) (width : Nat) : String :=
  String.mk (List.replicate (width - s.length) '0') ++ s

/-! ### Identity Resolver: `SECFetcher._get_cik` -/

/-- One entry of the bulk `company_tickers.json` index. -/
structure TickerEntry where
  ticker : String
  cik_str : Nat
  title : String
deriving DecidableEq, Repr

/-- The identity state (`self.cik`, `self.company_name`) set by `_get_cik`. -/
structure CompanyIdentity where
  cik : String
  company_name : String
deriving DecidableEq, Repr

/-- `_get_cik` for a fetcher constructed on `ticker` (already upper-cased by
`__init__`).  `resp` is the outcome of fetching and JSON-decoding the bulk
index: its entry list in iteration order, or an exception.  A missing ticker
raises `ValueError`, which the same handler catches, so both error paths end
in the synthetic identity. -/
def get_cik (ticker : String) (resp : Except String (List TickerEntry)) :
    CompanyIdentity :=
  match resp with
  | .error _ => { cik := "0000000000", company_name := ticker ++ " Corp." }
  | .ok entries =>
    match entries.find? (fun e => upperAscii e.ticker == ticker) with
    | some e => { cik := zfill (toString e.cik_str) 10, company_name := e.title }
    | none => { cik := "0000000000", company_name := ticker ++ " Corp." }

/-! ### Filing Locator: `SECFetcher._parse_atom_feed` -/

/-- Days in a month under the proleptic Gregorian calendar used by
`datetime.strptime`. -/
def daysInMonth (y m : Nat) : Nat :=
  if m = 2 then
    if (y % 4 = 0 ∧ y % 100 ≠ 0) ∨ y % 400 = 0 then 29 else 28
  else if m = 4 ∨ m = 6 ∨ m = 9 ∨ m = 11 then 30 else 31

/-- `datetime.strptime(s, '%Y-%m-%d')` as a partial function: a 1–4 digit
year, 1–2 digit month and day, all within `datetime`'s valid ranges;
everything else raises `ValueError` (modelled as `none`). -/
def parseYMD (s : String) : Option (Nat × Nat × Nat) :=
  match splitOnChar '-' s.data with
  | [ys, ms, ds] =>
    if !ys.isEmpty ∧ ys.length ≤ 4 ∧ ys.all Char.isDigit ∧
       !ms.isEmpty ∧ ms.length ≤ 2 ∧ ms.all Char.isDigit ∧
       !ds.isEmpty ∧ ds.length ≤ 2 ∧ ds.all Char.isDigit then
      let y := digitsToNat ys
      let m := digitsToNat ms
      let d := digitsToNat ds
      if 1 ≤ y ∧ 1 ≤ m ∧ m ≤ 12 ∧ 1 ≤ d ∧ d ≤ daysInMonth y m then
        some (y, m, d)
      else none
    else none
  | _ => none

/-- An order embedding of calendar dates into `Nat` (month `≤ 12 < 13`, day
`≤ 31 < 32`), used to compare parsed filing dates chronologically. -/
def dateVal (d : Nat × Nat × Nat) : Nat :=
  (d.1 * 13 + d.2.1) * 32 + d.2.2

/-- One `<entry>` block of the ATOM feed, abstracted to the outcomes of the
three regex searches `_parse_atom_feed` performs on it: the `<filing-date>`
capture, the accession-number capture (primary or alternate pattern), and the
`<filing-href>` capture; `none` means the pattern did not match. -/
structure FeedEntry where
  filing_date : Option String
  accession_number : Option String
  filing_href : Option String
deriving DecidableEq, Repr

/-- A filing dictionary produced by `_parse_atom_feed`
(`{'date': ..., 'accession': ..., 'url': ...}`). -/
structure FilingRef where
  date : String
  accession : String
  url : Option String
deriving DecidableEq, Repr

/-- The per-entry body of the `_parse_atom_feed` loop: skip (`continue`) when
the date is missing or unparseable, when the parsed date is older than the
cutoff, or when no accession number is found; otherwise emit the filing dict.
`cutoff` is `dateVal`-scale value of `datetime.now() - timedelta(days=365*years)`. -/
def entryToFiling (cutoff : Nat) (e : FeedEntry) : Option FilingRef :=
  match e.filing_date with
  | none => none
  | some ds =>
    match parseYMD ds with
    | none => none
    | some d =>
      if dateVal d < cutoff then none
      else
        match e.accession_number with
        | none => none
        | some acc => some { date := ds, accession := acc, url := e.filing_href }

/-- The ordering used by `filings.sort(key=lambda x: x['date'], reverse=True)`:
`a` may precede `b` iff `a`'s date *string* is not smaller than `b`'s
(Python sorts on the string key). -/
def dateDesc (a b : FilingRef) : Prop :=
  strLtB a.date.data b.date.data = false

instance : DecidableRel dateDesc :=
  fun a b => inferInstanceAs (Decidable (strLtB a.date.data b.date.data = false))

/-- `_parse_atom_feed` over the entry blocks of the feed body: filter/transform
each entry independently, then stable-sort descending by date string. -/
def parse_atom_feed (entries : List FeedEntry) (cutoff : Nat) : List FilingRef :=
  (entries.filterMap (entryToFiling cutoff)).insertionSort dateDesc

/-! ### Filing Document Retriever: `SECFetcher._download_filing` -/

/-- A row of the `Document Format Files` table on the filing index page,
abstracted to what the scraping loop reads: the number of `<td>` cells, the
text of `cells[3]` (the `Type` column), and the `href` of the first anchor in
`cells[2]` (if any). -/
structure DocRow where
  cellCount : Nat
  typeText : String
  href : Option String
deriving DecidableEq, Repr

/-- The `href.split('?doc=')[-1]` indirection-resolution for interactive
viewer links. -/
def resolveHref (href : String) : String :=
  if "/ix?doc=".data.isPrefixOf href.data then
    match afterLastSep "?doc=".data href.data with
    | some r => String.mk r
    | none => href
  else href

/-- The scraping loop over the table rows: the first row with more than three
cells whose `Type` text matches the filing type case-insensitively *and* which
has a link yields the document link (after viewer-indirection resolution);
matching rows without a link are passed over. -/
def findDocLink (filing_type : String) : List DocRow → Option String
  | [] => none
  | row :: rest =>
    if row.cellCount > 3 ∧ upperAscii row.typeText == upperAscii filing_type then
      match row.href with
      | some h => some (resolveHref h)
      | none => findDocLink filing_type rest
    else findDocLink filing_type rest

/-- Outcomes of the two HTTP requests `_download_filing` makes: fetching the
index page returns its parsed document table (`none` when the page has no
`Document Format Files` table) or raises; fetching the document returns its
raw bytes or raises. -/
structure FetchEnv where
  fetchIndex : String → Except String (Option (List DocRow))
  fetchDoc : String → Except String String

/-- The result dictionary of `_download_filing`. -/
structure DownloadedFiling where
  date : String
  url : String
  path : String
  size : Nat
  accession : String
deriving DecidableEq, Repr

/-- A `_download_filing` call's full effect: the returned dictionary plus the
single file write it performs (every control path writes exactly one file). -/
structure DownloadOutcome where
  result : DownloadedFiling
  written_path : String
  written_content : String

def BASE_URL : String := "https://www.sec.gov"

/-- `filing_type.replace(' ', '_').replace('/', '-')`. -/
def safeType (filing_type : String) : String :=
  (filing_type.replace " " "_").replace "/" "-"

/-- The cache path `data/cache/{ticker}/{ticker}_{safe_type}_{date}.html`. -/
def cacheFilepath (ticker filing_type date : String) : String :=
  "data/cache/" ++ ticker ++ "/" ++ ticker ++ "_" ++ safeType filing_type
    ++ "_" ++ date ++ ".html"

/-- `str(int(self.cik))` with the `"0000000000"` sentinel special-cased. -/
def cikNoPad (cik : String) : String :=
  if cik ≠ "0000000000" then toString ((cik.toNat?).getD 0) else "0"

/-- The index URL constructed when the feed entry carried no `<filing-href>`. -/
def defaultIndexUrl (cik accession : String) : String :=
  BASE_URL ++ "/Archives/edgar/data/" ++ cikNoPad cik ++ "/"
    ++ (accession.replace "-" "") ++ "/" ++ accession ++ "-index.html"

/-- The synthetic placeholder written when no document link is found. -/
def placeholderNoLink (ticker filing_type : String) : String :=
  "<html><body><h1>Demo Filing: " ++ filing_type
    ++ "</h1><p>This is a demo filing for " ++ ticker ++ "</p></body></html>"

/-- The synthetic placeholder written by the exception handler. -/
def placeholderError (ticker filing_type date : String) : String :=
  "<html><body><h1>Demo Filing: " ++ filing_type
    ++ "</h1><p>Demo content for " ++ ticker ++ " - " ++ date
    ++ "</p></body></html>"

/-- `_download_filing` for a fetcher with state `ticker`/`cik`, on one filing
reference and filing type, under request outcomes `env`. -/
def download_filing (env : FetchEnv) (ticker cik : String) (filing : FilingRef)
    (filing_type : String) : DownloadOutcome :=
  let index_url := filing.url.getD (defaultIndexUrl cik filing.accession)
  let filepath := cacheFilepath ticker filing_type filing.date
  let failOutcome : DownloadOutcome :=
    { result := { date := filing.date, url := index_url, path := filepath,
                  size := 1000, accession := filing.accession }
      written_path := filepath
      written_content := placeholderError ticker filing_type filing.date }
  match env.fetchIndex index_url with
  | .error _ => failOutcome
  | .ok table =>
    match table.bind (findDocLink filing_type) with
    | none =>
      { result := { date := filing.date, url := index_url, path := filepath,
                    size := 1000, accession := filing.accession }
        written_path := filepath
        written_content := placeholderNoLink ticker filing_type }
    | some doc_link =>
      let doc_url := BASE_URL ++ doc_link
      match env.fetchDoc doc_url with
      | .error _ => failOutcome
      | .ok content =>
        { result := { date := filing.date, url := doc_url, path := filepath,
                      size := content.length, accession := filing.accession }
          written_path := filepath
          written_content := content }

/-! ### `SECFetcher._fetch_filing_type` and `fetch_filings` -/

/-- `_fetch_filing_type`: on a request/parse exception return `[]`; otherwise
parse the feed, return `[]` when nothing matched, and download the first three
references (`_download_filing` never returns a falsy value, so every download
is appended). -/
def fetch_filing_type (env : FetchEnv)
    (feed : Except String (List FeedEntry)) (cutoff : Nat)
    (ticker cik filing_type : String) : List DownloadedFiling :=
  match feed with
  | .error _ => []
  | .ok entries =>
    let filings := parse_atom_feed entries cutoff
    if filings.isEmpty then []
    else (filings.take 3).map
      (fun f => (download_filing env ticker cik f filing_type).result)

/-- `fetch_filings`: one `results[filing_type] = ...` dict assignment per
requested type, in order.  `feedOf` gives the feed-request outcome for each
filing type. -/
def fetch_filings (env : FetchEnv)
    (feedOf : String → Except String (List FeedEntry)) (cutoff : Nat)
    (ticker cik : String) (filing_types : List String) :
    List (String × List DownloadedFiling) :=
  filing_types.foldl
    (fun acc ft =>
      dictUpdate acc ft (fetch_filing_type env (feedOf ft) cutoff ticker cik ft))
    []

/-! ### Helper lemmas -/

/-- `demo_companies` has only the `'AAPL'` entry and the `.get` falls back to
that same entry, so the demo dataset is the AAPL data for every ticker. -/
theorem get_complete_demo_data_eq (t : Option String) :
    get_complete_demo_data t = demo_aapl := by
  rcases t with _ | s
  · rfl
  · by_cases h : s = "AAPL"
    · subst h; rfl
    · have hb : (s == "AAPL") = false := by simpa using h
      simp [get_complete_demo_data, demo_companies, List.lookup, hb]

/-- `extract_10k_data` returns a single-key `{'10k': ...}` dict on every
control path. -/
theorem extract_10k_shape (hasClient : Bool) (filings : List FilingDoc)
    (conv : String → Option String) (svc : SvcResult FinExtraction) :
    ∃ r, extract_10k_data hasClient filings conv svc = [("10k", RecordVal.fin r)] := by
  unfold extract_10k_data
  repeat' split
  all_goals exact ⟨_, rfl⟩

/-- `extract_proxy_data` returns a single-key `{'proxy': ...}` dict on every
control path. -/
theorem extract_proxy_shape (hasClient : Bool) (filings : List FilingDoc)
    (conv : String → Option String) (svc : SvcResult ProxyExtraction) :
    ∃ r, extract_proxy_data hasClient filings conv svc = [("proxy", RecordVal.gov r)] := by
  unfold extract_proxy_data
  repeat' split
  all_goals exact ⟨_, rfl⟩

/-! ### C1: the merged pipeline output always has exactly the three top-level
keys `'10k'`, `'proxy'`, `'8k'`, each non-null -/

set_option maxHeartbeats 1000000 in
/-- C1.  For every client state, scraped ticker, input filings dictionary and
every outcome (success or exception) of the three extraction tasks, the
result of `process_all_documents` binds each of the keys `'10k'`, `'proxy'`
and `'8k'` to a value, and its key list is exactly a permutation of those
three keys — no more, no fewer, no duplicates. -/
theorem C1_pipeline_required_keys (hasClient : Bool) (ticker : Option String)
    (filings : Filings) (o1 : TaskOutcome FinancialRecord)
    (o2 : TaskOutcome GovernanceRecord) (o3 : TaskOutcome EventRecord) :
    (((process_all_documents hasClient ticker filings o1 o2 o3).lookup "10k").isSome = true ∧
     ((process_all_documents hasClient ticker filings o1 o2 o3).lookup "proxy").isSome = true ∧
     ((process_all_documents hasClient ticker filings o1 o2 o3).lookup "8k").isSome = true) ∧
    List.Perm ((process_all_documents hasClient ticker filings o1 o2 o3).map Prod.fst)
      ["10k", "proxy", "8k"] := by
  cases hasClient with
  | false =>
    have h : process_all_documents false ticker filings o1 o2 o3 = demo_aapl := by
      simpa [process_all_documents] using get_complete_demo_data_eq ticker
    rw [h]
    exact ⟨⟨rfl, rfl, rfl⟩, by decide⟩
  | true =>
    cases h1 : hasDocs filings "10-K" <;> cases h2 : hasDocs filings "DEF 14A" <;>
      cases h3 : hasDocs filings "8-K" <;> cases o1 <;> cases o2 <;> cases o3 <;>
      simp only [process_all_documents, h1, h2, h3, taskItem10k, taskItemProxy,
        taskItem8k, Bool.not_true, Bool.false_eq_true, if_true, if_false,
        List.cons_append, List.nil_append, List.append_nil] <;>
      first
      | (rw [get_complete_demo_data_eq]; exact ⟨⟨rfl, rfl, rfl⟩, by decide⟩)
      | (simp [combineResults, ensure_required_fields, dictUpdate, List.lookup] <;> decide)

/-! ### C2: one failing category does not poison a succeeding sibling -/

/-- C2.  For every filings dictionary, scraped ticker and every combination
of task outcomes, `process_all_documents` (a total function — no exception
escapes) treats each non-empty category independently: a category whose
extraction task raises an exception has its key force-filled with its default
record, and a category whose task succeeds keeps its extracted data under its
key.  Hence in *every* configuration where one category's task raises and a
sibling category's task succeeds — whichever of 10-K, DEF 14A or 8-K plays
either role — the merged result holds the sibling's real data and the failing
category's default. -/
theorem C2_sibling_failure_isolated (ticker : Option String) (filings : Filings)
    (o1 : TaskOutcome FinancialRecord) (o2 : TaskOutcome GovernanceRecord)
    (o3 : TaskOutcome EventRecord) :
    (∀ m, hasDocs filings "10-K" = true → o1 = .exn m →
       (process_all_documents true ticker filings o1 o2 o3).lookup "10k"
         = some (.fin get_default_10k_data)) ∧
    (∀ r, hasDocs filings "10-K" = true → o1 = .ok r →
       (process_all_documents true ticker filings o1 o2 o3).lookup "10k"
         = some (.fin r)) ∧
    (∀ m, hasDocs filings "DEF 14A" = true → o2 = .exn m →
       (process_all_documents true ticker filings o1 o2 o3).lookup "proxy"
         = some (.gov get_default_proxy_data)) ∧
    (∀ g, hasDocs filings "DEF 14A" = true → o2 = .ok g →
       (process_all_documents true ticker filings o1 o2 o3).lookup "proxy"
         = some (.gov g)) ∧
    (∀ m, hasDocs filings "8-K" = true → o3 = .exn m →
       (process_all_documents true ticker filings o1 o2 o3).lookup "8k"
         = some (.ev ⟨[]⟩)) ∧
    (∀ e, hasDocs filings "8-K" = true → o3 = .ok e →
       (process_all_documents true ticker filings o1 o2 o3).lookup "8k"
         = some (.ev e)) := by
  refine ⟨?_, ?_, ?_, ?_, ?_, ?_⟩
  · intro m h1 ho
    subst ho
    cases h2 : hasDocs filings "DEF 14A" <;> cases h3 : hasDocs filings "8-K" <;>
      cases o2 <;> cases o3 <;>
      simp only [process_all_documents, h1, h2, h3, taskItem10k, taskItemProxy,
        taskItem8k, Bool.not_true, Bool.false_eq_true, if_true, if_false,
        List.cons_append, List.nil_append, List.append_nil] <;>
      rfl
  · intro r h1 ho
    subst ho
    cases h2 : hasDocs filings "DEF 14A" <;> cases h3 : hasDocs filings "8-K" <;>
      cases o2 <;> cases o3 <;>
      simp only [process_all_documents, h1, h2, h3, taskItem10k, taskItemProxy,
        taskItem8k, Bool.not_true, Bool.false_eq_true, if_true, if_false,
        List.cons_append, List.nil_append, List.append_nil] <;>
      rfl
  · intro m h2 ho
    subst ho
    cases h1 : hasDocs filings "10-K" <;> cases h3 : hasDocs filings "8-K" <;>
      cases o1 <;> cases o3 <;>
      simp only [process_all_documents, h1, h2, h3, taskItem10k, taskItemProxy,
        taskItem8k, Bool.not_true, Bool.false_eq_true, if_true, if_false,
        List.cons_append, List.nil_append, List.append_nil] <;>
      rfl
  · intro g h2 ho
    subst ho
    cases h1 : hasDocs filings "10-K" <;> cases h3 : hasDocs filings "8-K" <;>
      cases o1 <;> cases o3 <;>
      simp only [process_all_documents, h1, h2, h3, taskItem10k, taskItemProxy,
        taskItem8k, Bool.not_true, Bool.false_eq_true, if_true, if_false,
        List.cons_append, List.nil_append, List.append_nil] <;>
      rfl
  · intro m h3 ho
    subst ho
    cases h1 : hasDocs filings "10-K" <;> cases h2 : hasDocs filings "DEF 14A" <;>
      cases o1 <;> cases o2 <;>
      simp only [process_all_documents, h1, h2, h3, taskItem10k, taskItemProxy,
        taskItem8k, Bool.not_true, Bool.false_eq_true, if_true, if_false,
        List.cons_append, List.nil_append, List.append_nil] <;>
      rfl
  · intro e h3 ho
    subst ho
    cases h1 : hasDocs filings "10-K" <;> cases h2 : hasDocs filings "DEF 14A" <;>
      cases o1 <;> cases o2 <;>
      simp only [process_all_documents, h1, h2, h3, taskItem10k, taskItemProxy,
        taskItem8k, Bool.not_true, Bool.false_eq_true, if_true, if_false,
        List.cons_append, List.nil_append, List.append_nil] <;>
      rfl

/-- Witness for C2 at a concrete input, in the symmetric configuration: both
categories hold one document, the DEF 14A task raised `'boom'` while the
10-K task returned a real record (and the 8-K task also raised) — the result
keeps the 10-K data and force-fills `'proxy'` with the all-zero governance
default. -/
theorem C2_sibling_failure_isolated_witness :
    (process_all_documents true (some "AAPL")
        [("10-K", [⟨some "a.html", some "2023-01-01"⟩]),
         ("DEF 14A", [⟨some "b.html", some "2023-02-01"⟩])]
        (.ok demo_10k) (.exn "boom") (.exn "also boom")).lookup "10k"
      = some (.fin demo_10k) ∧
    (process_all_documents true (some "AAPL")
        [("10-K", [⟨some "a.html", some "2023-01-01"⟩]),
         ("DEF 14A", [⟨some "b.html", some "2023-02-01"⟩])]
        (.ok demo_10k) (.exn "boom") (.exn "also boom")).lookup "proxy"
      = some (.gov get_default_proxy_data) := by
  obtain ⟨-, hok10, hexnProxy, -, -, -⟩ :=
    C2_sibling_failure_isolated (some "AAPL")
      [("10-K", [⟨some "a.html", some "2023-01-01"⟩]),
       ("DEF 14A", [⟨some "b.html", some "2023-02-01"⟩])]
      (.ok demo_10k) (.exn "boom") (.exn "also boom")
  exact ⟨hok10 demo_10k (by decide) rfl, hexnProxy "boom" (by decide) rfl⟩

/-! ### C3: all-categories-empty input -/

/-- C3 counterexample.  Called with `{"10-K": [], "DEF 14A": []}` (with a
client configured and arbitrary task outcomes, which are never used), the
result's `'10k'` value is **not** the documented all-zero default record: the
code returns the AAPL demo dataset instead. -/
theorem C3_empty_categories_counterexample :
    (process_all_documents true none [("10-K", []), ("DEF 14A", [])]
        (.exn "") (.exn "") (.exn "")).lookup "10k"
      ≠ some (.fin get_default_10k_data) := by
  decide

/-- C3 amended.  Calling `process_all_documents` with categories
`{"10-K": [], "DEF 14A": []}` (every requested category present but with an
empty document list) yields, for every client state, scraped ticker and task
outcomes, the complete demo dataset: non-null `'10k'`, `'proxy'` and `'8k'`
keys equal to the AAPL demo records — not the all-zero defaults. -/
theorem C3_empty_categories_demo_data (hasClient : Bool) (ticker : Option String)
    (o1 : TaskOutcome FinancialRecord) (o2 : TaskOutcome GovernanceRecord)
    (o3 : TaskOutcome EventRecord) :
    process_all_documents hasClient ticker [("10-K", []), ("DEF 14A", [])] o1 o2 o3
      = [("10k", .fin demo_10k), ("proxy", .gov demo_proxy), ("8k", .ev demo_8k)] := by
  have h10 : hasDocs [("10-K", []), ("DEF 14A", [])] "10-K" = false := by decide
  have hdef : hasDocs [("10-K", []), ("DEF 14A", [])] "DEF 14A" = false := by decide
  have h8 : hasDocs [("10-K", []), ("DEF 14A", [])] "8-K" = false := by decide
  cases hasClient <;>
    simp [process_all_documents, h10, hdef, h8, get_complete_demo_data_eq, demo_aapl]

/-! ### C7: no-credential calls return the fixed AAPL demo dataset -/

/-- C7.  With no extraction credential configured (`self.client is None`),
`process_all_documents` returns the fixed demo dataset for **every** scraped
ticker and every input: the `'10k'` record is the AAPL demo record with
`revenue_current = 383285000000` exactly, so any non-AAPL ticker receives the
same AAPL numbers rather than zeros. -/
theorem C7_demo_mode_fixed_dataset (ticker : Option String) (filings : Filings)
    (o1 : TaskOutcome FinancialRecord) (o2 : TaskOutcome GovernanceRecord)
    (o3 : TaskOutcome EventRecord) :
    process_all_documents false ticker filings o1 o2 o3 = demo_aapl ∧
    demo_aapl.lookup "10k" = some (.fin demo_10k) ∧
    demo_10k.revenue_current = 383285000000 := by
  refine ⟨?_, rfl, rfl⟩
  simpa [process_all_documents] using get_complete_demo_data_eq ticker

/-! ### C8: failure defaults are all-zero; average tenure is derived -/

/-- C8.  (i) The default financial record has every field `0`; (ii) the
default governance record has `average_director_tenure = 0` and an empty
board; (iii)–(viii) every extraction failure — a service exception during
10-K or proxy extraction, an empty input list, or a failed HTML→markdown
conversion — returns exactly the corresponding default record; (ix) on the
success path the proxy record stores the raw board-member list; and (x) its
`average_director_tenure` equals 0 when `board_members` is empty and
otherwise the arithmetic mean of the members' `tenure_years` (a missing
`tenure_years` counting as 0) — never an independently supplied value. -/
theorem C8_failure_defaults_and_derived_tenure
    (filings : List FilingDoc) (conv : String → Option String) (m : String)
    (svc : SvcResult FinExtraction) (psvc : SvcResult ProxyExtraction)
    (d d2 : FilingDoc) (rest : List FilingDoc) (p p2 : String)
    (e : ProxyExtraction) :
    (get_default_10k_data.revenue_current = 0 ∧
     get_default_10k_data.revenue_prior_1 = 0 ∧
     get_default_10k_data.revenue_prior_2 = 0 ∧
     get_default_10k_data.operating_income = 0 ∧
     get_default_10k_data.net_income_current = 0 ∧
     get_default_10k_data.net_income_prior_1 = 0 ∧
     get_default_10k_data.total_assets = 0 ∧
     get_default_10k_data.total_liabilities = 0 ∧
     get_default_10k_data.shareholders_equity = 0 ∧
     get_default_10k_data.cash_equivalents = 0 ∧
     get_default_10k_data.total_debt = 0 ∧
     get_default_10k_data.shares_outstanding = 0) ∧
    (get_default_proxy_data.average_director_tenure = 0 ∧
     get_default_proxy_data.board_members = []) ∧
    extract_10k_data true filings conv (.err m)
      = [("10k", .fin get_default_10k_data)] ∧
    extract_proxy_data true filings conv (.err m)
      = [("proxy", .gov get_default_proxy_data)] ∧
    extract_10k_data true [] conv svc = [("10k", .fin get_default_10k_data)] ∧
    extract_proxy_data true [] conv psvc
      = [("proxy", .gov get_default_proxy_data)] ∧
    (d.path = some p → lowerEndsWithHtml p = true →
      extract_10k_data true (d :: rest) (fun _ => none) svc
        = [("10k", .fin get_default_10k_data)]) ∧
    (d.path = some p → lowerEndsWithHtml p = true →
      extract_proxy_data true (d :: rest) (fun _ => none) psvc
        = [("proxy", .gov get_default_proxy_data)]) ∧
    (d2.path = some p2 → lowerEndsWithHtml p2 = false →
      extract_proxy_data true (d2 :: rest) conv (.ok e)
        = [("proxy", .gov (proxy_from_extraction e))]) ∧
    ((proxy_from_extraction e).board_members = e.board_members.getD [] ∧
     (proxy_from_extraction e).average_director_tenure =
       (if (proxy_from_extraction e).board_members.isEmpty then 0
        else ((proxy_from_extraction e).board_members.map
                (fun bm => bm.tenure_years.getD 0)).sum
              / ((proxy_from_extraction e).board_members.length : ℚ))) := by
  refine ⟨⟨rfl, rfl, rfl, rfl, rfl, rfl, rfl, rfl, rfl, rfl, rfl, rfl⟩,
    ⟨rfl, rfl⟩, ?_, ?_, rfl, rfl, ?_, ?_, ?_, ⟨rfl, ?_⟩⟩
  · unfold extract_10k_data
    repeat' split
    all_goals simp_all
  · unfold extract_proxy_data
    repeat' split
    all_goals simp_all
  · intro hp hh
    simp [extract_10k_data, hp, hh]
  · intro hp hh
    simp [extract_proxy_data, hp, hh]
  · intro hp hh
    simp [extract_proxy_data, hp, hh]
  · rcases hb : e.board_members.getD [] with _ | ⟨x, xs⟩
    · simp [proxy_from_extraction, hb]
    · simp [proxy_from_extraction, hb, List.length_map]

/-- Witness for C8 at concrete inputs: an exception-path 10-K extraction over
one HTML document yields the all-zero record; a success-path proxy extraction
over one markdown document with a two-member board (tenures 5 and missing)
yields the record derived by `proxy_from_extraction`, whose average tenure
follows the arithmetic-mean equation. -/
theorem C8_failure_defaults_and_derived_tenure_witness :
    extract_10k_data true [⟨some "AAPL_10-K_2023-01-01.html", some "2023-01-01"⟩]
        (fun _ => none) (.err "service down")
      = [("10k", .fin get_default_10k_data)] ∧
    extract_proxy_data true [⟨some "AAPL_DEF_14A_2023-01-01.md", some "2023-01-01"⟩]
        (fun _ => none)
        (.ok ⟨none, none, none, none, none,
          some [⟨some "A", none, some true, some 5⟩, ⟨some "B", none, none, none⟩]⟩)
      = [("proxy", .gov (proxy_from_extraction ⟨none, none, none, none, none,
          some [⟨some "A", none, some true, some 5⟩, ⟨some "B", none, none, none⟩]⟩))] ∧
    (proxy_from_extraction ⟨none, none, none, none, none,
        some [⟨some "A", none, some true, some 5⟩, ⟨some "B", none, none, none⟩]⟩).average_director_tenure =
      (if (proxy_from_extraction ⟨none, none, none, none, none,
            some [⟨some "A", none, some true, some 5⟩, ⟨some "B", none, none, none⟩]⟩).board_members.isEmpty
       then 0
       else ((proxy_from_extraction ⟨none, none, none, none, none,
              some [⟨some "A", none, some true, some 5⟩, ⟨some "B", none, none, none⟩]⟩).board_members.map
                (fun bm => bm.tenure_years.getD 0)).sum
              / ((proxy_from_extraction ⟨none, none, none, none, none,
                  some [⟨some "A", none, some true, some 5⟩, ⟨some "B", none, none, none⟩]⟩).board_members.length : ℚ)) := by
  obtain ⟨-, -, -, -, -, -, h7, -, h9, h10⟩ :=
    C8_failure_defaults_and_derived_tenure
      [⟨some "AAPL_10-K_2023-01-01.html", some "2023-01-01"⟩]
      (fun _ => none) "service down" (.err "service down")
      (.ok ⟨none, none, none, none, none,
        some [⟨some "A", none, some true, some 5⟩, ⟨some "B", none, none, none⟩]⟩)
      ⟨some "AAPL_10-K_2023-01-01.html", some "2023-01-01"⟩
      ⟨some "AAPL_DEF_14A_2023-01-01.md", some "2023-01-01"⟩
      [] "AAPL_10-K_2023-01-01.html" "AAPL_DEF_14A_2023-01-01.md"
      ⟨none, none, none, none, none,
        some [⟨some "A", none, some true, some 5⟩, ⟨some "B", none, none, none⟩]⟩
  exact ⟨h7 rfl (by decide), h9 rfl (by decide), h10.2⟩

/-! ### Order facts about the code-point string comparison -/

/-- Code-point comparison is asymmetric. -/
theorem strLtB_asymm : ∀ x y : List Char, strLtB x y = true → strLtB y x = false := by
  intro x
  induction x with
  | nil =>
    intro y h
    cases y with
    | nil => simp [strLtB] at h
    | cons b bs => simp [strLtB]
  | cons a as ih =>
    intro y h
    cases y with
    | nil => simp [strLtB] at h
    | cons b bs =>
      simp only [strLtB] at h ⊢
      by_cases hab : a.toNat < b.toNat
      · have hba : ¬ b.toNat < a.toNat := by omega
        simp [hab, hba]
      · by_cases hba : b.toNat < a.toNat
        · simp [hab, hba] at h
        · simp only [hab, hba, if_false] at h ⊢
          exact ih bs h

/-- Transitivity of the complement of the code-point comparison (`x ≥ y` and
`y ≥ z` imply `x ≥ z`). -/
theorem strLtB_false_trans : ∀ x y z : List Char,
    strLtB x y = false → strLtB y z = false → strLtB x z = false := by
  intro x
  induction x with
  | nil =>
    intro y z hxy hyz
    cases y with
    | nil => exact hyz
    | cons b bs => simp [strLtB] at hxy
  | cons a as ih =>
    intro y z hxy hyz
    cases z with
    | nil => rfl
    | cons c cs =>
      cases y with
      | nil => simp [strLtB] at hyz
      | cons b bs =>
        simp only [strLtB] at hxy hyz ⊢
        by_cases hab : a.toNat < b.toNat
        · simp [hab] at hxy
        · by_cases hbc : b.toNat < c.toNat
          · simp [hbc] at hyz
          · by_cases hac : a.toNat < c.toNat
            · exact absurd hac (by omega)
            · by_cases hca : c.toNat < a.toNat
              · simp [hac, hca]
              · have hba : ¬ b.toNat < a.toNat := by omega
                have hcb : ¬ c.toNat < b.toNat := by omega
                simp only [hab, hba, if_false] at hxy
                simp only [hbc, hcb, if_false] at hyz
                simp only [hac, hca, if_false]
                exact ih bs cs hxy hyz

instance : IsTotal FilingRef dateDesc :=
  ⟨fun a b => by
    cases h : strLtB a.date.data b.date.data
    · exact Or.inl h
    · exact Or.inr (strLtB_asymm _ _ h)⟩

instance : IsTrans FilingRef dateDesc :=
  ⟨fun _ _ _ hab hbc => strLtB_false_trans _ _ _ hab hbc⟩

/-! ### Association-list lemmas for the Python dict model -/

/-- `lookup` at a cons whose key matches. -/
theorem lookup_cons_eq {α : Type} (k ka : String) (va : α)
    (t : List (String × α)) (h : (k == ka) = true) :
    ((ka, va) :: t).lookup k = some va := by
  rw [List.lookup_cons, h]

/-- `lookup` at a cons whose key differs. -/
theorem lookup_cons_ne {α : Type} (k ka : String) (va : α)
    (t : List (String × α)) (h : (k == ka) = false) :
    ((ka, va) :: t).lookup k = t.lookup k := by
  rw [List.lookup_cons, h]

/-- Looking up the updated key in the in-place-replacement branch. -/
theorem lookup_map_replace {α : Type} (d : List (String × α)) (k : String) (v : α) :
    (d.map (fun p => if p.1 = k then (k, v) else p)).lookup k
      = if (d.lookup k).isSome then some v else none := by
  induction d with
  | nil => simp
  | cons a t ih =>
    obtain ⟨ka, va⟩ := a
    by_cases h : ka = k
    · subst h
      have h1 : List.map (fun p => if p.1 = ka then (ka, v) else p) ((ka, va) :: t)
          = (ka, v) :: List.map (fun p => if p.1 = ka then (ka, v) else p) t := by
        simp
      rw [h1, lookup_cons_eq _ _ _ _ (by simp), lookup_cons_eq _ _ _ _ (by simp)]
      simp
    · have hb : (k == ka) = false := by simp [Ne.symm h]
      have h1 : List.map (fun p => if p.1 = k then (k, v) else p) ((ka, va) :: t)
          = (ka, va) :: List.map (fun p => if p.1 = k then (k, v) else p) t := by
        simp [h]
      rw [h1, lookup_cons_ne _ _ _ _ hb, lookup_cons_ne _ _ _ _ hb, ih]

/-- Looking up a different key in the in-place-replacement branch. -/
theorem lookup_map_replace_ne {α : Type} (d : List (String × α)) (k : String)
    (v : α) (k' : String) (h : k' ≠ k) :
    (d.map (fun p => if p.1 = k then (k, v) else p)).lookup k' = d.lookup k' := by
  induction d with
  | nil => simp
  | cons a t ih =>
    obtain ⟨ka, va⟩ := a
    by_cases hk : ka = k
    · subst hk
      have hb : (k' == ka) = false := by simp [h]
      have h1 : List.map (fun p => if p.1 = ka then (ka, v) else p) ((ka, va) :: t)
          = (ka, v) :: List.map (fun p => if p.1 = ka then (ka, v) else p) t := by
        simp
      rw [h1, lookup_cons_ne _ _ _ _ hb, lookup_cons_ne _ _ _ _ hb, ih]
    · have h1 : List.map (fun p => if p.1 = k then (k, v) else p) ((ka, va) :: t)
          = (ka, va) :: List.map (fun p => if p.1 = k then (k, v) else p) t := by
        simp [hk]
      rw [h1]
      by_cases hb : (k' == ka) = true
      · rw [lookup_cons_eq _ _ _ _ hb, lookup_cons_eq _ _ _ _ hb]
      · have hb' : (k' == ka) = false := by simpa using hb
        rw [lookup_cons_ne _ _ _ _ hb', lookup_cons_ne _ _ _ _ hb', ih]

/-- `lookup` over an append tries the left list first. -/
theorem lookup_append {α : Type} (l₁ l₂ : List (String × α)) (k : String) :
    (l₁ ++ l₂).lookup k = ((l₁.lookup k).orElse fun _ => l₂.lookup k) := by
  induction l₁ with
  | nil => simp
  | cons a t ih =>
    obtain ⟨ka, va⟩ := a
    by_cases hb : (k == ka) = true
    · rw [List.cons_append, lookup_cons_eq _ _ _ _ hb, lookup_cons_eq _ _ _ _ hb]
      rfl
    · have hb' : (k == ka) = false := by simpa using hb
      rw [List.cons_append, lookup_cons_ne _ _ _ _ hb', lookup_cons_ne _ _ _ _ hb', ih]

/-- A dict assignment binds the assigned key to the assigned value. -/
theorem lookup_dictUpdate_self {α : Type} (d : List (String × α)) (k : String)
    (v : α) : (dictUpdate d k v).lookup k = some v := by
  unfold dictUpdate
  by_cases h : (d.lookup k).isSome
  · simp [h, lookup_map_replace]
  · have hn : d.lookup k = none := by
      cases hd : d.lookup k
      · rfl
      · rw [hd] at h; simp at h
    rw [if_neg h, lookup_append, hn]
    simp [lookup_cons_eq k k v [] (by simp)]

/-- A dict assignment leaves every other key's binding unchanged. -/
theorem lookup_dictUpdate_ne {α : Type} (d : List (String × α)) (k : String)
    (v : α) (k' : String) (h : k' ≠ k) :
    (dictUpdate d k v).lookup k' = d.lookup k' := by
  unfold dictUpdate
  by_cases hs : (d.lookup k).isSome
  · simp [hs, lookup_map_replace_ne _ _ _ _ h]
  · have hb : (k' == k) = false := by simp [h]
    rw [if_neg hs, lookup_append, lookup_cons_ne _ _ _ _ hb]
    cases hd : d.lookup k'
    · simp
    · simp

/-- Key inventory of a dict assignment: unchanged when the key was present,
the key appended when it was not. -/
theorem keys_dictUpdate {α : Type} (d : List (String × α)) (k : String) (v : α) :
    (dictUpdate d k v).map Prod.fst
      = if (d.lookup k).isSome then d.map Prod.fst else d.map Prod.fst ++ [k] := by
  unfold dictUpdate
  by_cases h : (d.lookup k).isSome
  · simp only [h, if_true, List.map_map]
    refine List.map_congr_left ?_
    intro p _
    by_cases hp : p.1 = k
    · simp [Function.comp, hp]
    · simp [Function.comp, hp]
  · simp [h]

/-- A key has a binding iff it occurs in the key inventory. -/
theorem lookup_isSome_iff_mem_keys {α : Type} (d : List (String × α)) (k : String) :
    (d.lookup k).isSome = true ↔ k ∈ d.map Prod.fst := by
  induction d with
  | nil => simp
  | cons a t ih =>
    obtain ⟨ka, va⟩ := a
    by_cases h : k = ka
    · subst h
      rw [lookup_cons_eq _ _ _ _ (by simp)]
      simp
    · have hb : (k == ka) = false := by simp [h]
      rw [lookup_cons_ne _ _ _ _ hb]
      simp [ih, h]

/-! ### C5: identity resolution never fails and falls back to the sentinel -/

/-- C5.  `_get_cik` is a total function (no exception reaches the caller) that
always produces an identity: on a fetch/parse exception, or when no entry of
the bulk index matches the ticker case-insensitively, it returns the sentinel
identifier `"0000000000"` with display name `"{ticker} Corp."`; when a match
is found it returns the zero-padded CIK and the entry title. -/
theorem C5_identity_fallback (ticker : String)
    (resp : Except String (List TickerEntry)) :
    (∀ m, resp = .error m →
       get_cik ticker resp
         = { cik := "0000000000", company_name := ticker ++ " Corp." }) ∧
    (∀ entries, resp = .ok entries →
       entries.find? (fun e => upperAscii e.ticker == ticker) = none →
       get_cik ticker resp
         = { cik := "0000000000", company_name := ticker ++ " Corp." }) ∧
    (∀ entries e, resp = .ok entries →
       entries.find? (fun e2 => upperAscii e2.ticker == ticker) = some e →
       get_cik ticker resp
         = { cik := zfill (toString e.cik_str) 10, company_name := e.title }) := by
  refine ⟨?_, ?_, ?_⟩
  · intro m hm
    subst hm
    rfl
  · intro entries hok hfind
    subst hok
    simp [get_cik, hfind]
  · intro entries e hok hfind
    subst hok
    simp [get_cik, hfind]

/-- Witness for C5: a network failure and an index without the ticker both
yield the sentinel identity for ticker `"PLTR"`; a matching entry yields the
padded CIK. -/
theorem C5_identity_fallback_witness :
    get_cik "PLTR" (.error "connection timed out")
      = { cik := "0000000000", company_name := "PLTR Corp." } ∧
    get_cik "PLTR" (.ok [⟨"aapl", 320193, "Apple Inc."⟩])
      = { cik := "0000000000", company_name := "PLTR Corp." } ∧
    get_cik "AAPL" (.ok [⟨"aapl", 320193, "Apple Inc."⟩])
      = { cik := zfill (toString (320193 : Nat)) 10, company_name := "Apple Inc." } := by
  refine ⟨(C5_identity_fallback "PLTR" (.error "connection timed out")).1
      "connection timed out" rfl, ?_, ?_⟩
  · exact (C5_identity_fallback "PLTR" (.ok [⟨"aapl", 320193, "Apple Inc."⟩])).2.1
      [⟨"aapl", 320193, "Apple Inc."⟩] rfl (by decide)
  · exact (C5_identity_fallback "AAPL" (.ok [⟨"aapl", 320193, "Apple Inc."⟩])).2.2
      [⟨"aapl", 320193, "Apple Inc."⟩] ⟨"aapl", 320193, "Apple Inc."⟩ rfl (by decide)

/-! ### C9: the cache path is a function of ticker, category and date only -/

/-- Every control path of `_download_filing` reports and writes to the same
cache path `data/cache/{ticker}/{ticker}_{safe_type}_{date}.html`. -/
theorem download_filing_path (env : FetchEnv) (ticker cik : String)
    (f : FilingRef) (ft : String) :
    (download_filing env ticker cik f ft).result.path
        = cacheFilepath ticker ft f.date ∧
    (download_filing env ticker cik f ft).written_path
        = cacheFilepath ticker ft f.date := by
  unfold download_filing
  dsimp only
  repeat' split
  all_goals exact ⟨rfl, rfl⟩

/-- C9.  The cache file path is a deterministic function of the ticker, the
sanitized filing category and the filing date only: two retrieve calls that
agree on those three — for any request outcomes, any CIK state, and any
accession number or index URL in the filing reference — produce the same
path, and each call writes its file at exactly that path (so the second call
overwrites the first call's file). -/
theorem C9_cache_path_deterministic (env env2 : FetchEnv)
    (ticker cik cik2 ft : String) (f f2 : FilingRef)
    (hdate : f.date = f2.date) :
    (download_filing env ticker cik f ft).result.path
        = (download_filing env2 ticker cik2 f2 ft).result.path ∧
    (download_filing env ticker cik f ft).written_path
        = (download_filing env ticker cik f ft).result.path ∧
    (download_filing env2 ticker cik2 f2 ft).written_path
        = (download_filing env2 ticker cik2 f2 ft).result.path ∧
    (download_filing env ticker cik f ft).result.path
        = "data/cache/" ++ ticker ++ "/" ++ ticker ++ "_"
            ++ ((ft.replace " " "_").replace "/" "-") ++ "_" ++ f.date ++ ".html" := by
  obtain ⟨p1, w1⟩ := download_filing_path env ticker cik f ft
  obtain ⟨p2, w2⟩ := download_filing_path env2 ticker cik2 f2 ft
  refine ⟨?_, ?_, ?_, ?_⟩
  · rw [p1, p2, hdate]
  · rw [w1, p1]
  · rw [w2, p2]
  · rw [p1]; rfl

/-- Witness for C9: two calls for the same ticker, category and date — one
whose index fetch fails, one that downloads a document, with different
accession numbers and index URLs — target the identical cache path. -/
theorem C9_cache_path_deterministic_witness :
    (download_filing ⟨fun _ => .error "edgar down", fun _ => .error "edgar down"⟩
        "AAPL" "0000320193" ⟨"2023-11-03", "0000320193-23-000106", none⟩
        "DEF 14A").result.path
      = (download_filing
          ⟨fun _ => .ok (some [⟨4, "DEF 14A", some "/Archives/doc.htm"⟩]),
            fun _ => .ok "<html>proxy statement</html>"⟩
          "AAPL" "9999999999" ⟨"2023-11-03", "0000320193-23-000999", some "http://idx"⟩
          "DEF 14A").result.path ∧
    (download_filing ⟨fun _ => .error "edgar down", fun _ => .error "edgar down"⟩
        "AAPL" "0000320193" ⟨"2023-11-03", "0000320193-23-000106", none⟩
        "DEF 14A").result.path
      = "data/cache/" ++ "AAPL" ++ "/" ++ "AAPL" ++ "_"
          ++ (("DEF 14A".replace " " "_").replace "/" "-") ++ "_" ++ "2023-11-03"
          ++ ".html" := by
  obtain ⟨h1, -, -, h4⟩ := C9_cache_path_deterministic
    ⟨fun _ => .error "edgar down", fun _ => .error "edgar down"⟩
    ⟨fun _ => .ok (some [⟨4, "DEF 14A", some "/Archives/doc.htm"⟩]),
      fun _ => .ok "<html>proxy statement</html>"⟩
    "AAPL" "0000320193" "9999999999" "DEF 14A"
    ⟨"2023-11-03", "0000320193-23-000106", none⟩
    ⟨"2023-11-03", "0000320193-23-000999", some "http://idx"⟩ rfl
  exact ⟨h1, h4⟩

/-! ### C4: retriever result shape, placeholder sizes -/

/-- C4 counterexample.  A retrieve call whose index fetch and document fetch
both succeed but whose document body is empty returns `size = 0`: the claim
that the size field is strictly greater than zero in every case is false.
(The failure-path size of exactly 1000 is untouched — this is a success
path.) -/
theorem C4_retriever_size_counterexample :
    (download_filing
        ⟨fun _ => .ok (some [⟨4, "10-K", some "/Archives/edgar/doc.htm"⟩]),
          fun _ => .ok ""⟩
        "AAPL" "0000320193"
        ⟨"2023-01-01", "0000320193-23-000001", some "http://idx"⟩
        "10-K").result.size = 0 := by
  rfl

/-- C4 amended.  Every `_download_filing` call returns a fully populated
record (date, url, path, size, accession) and writes exactly one file at the
reported path.  On every failure path — index fetch exception, no matching
document link, or document fetch exception — the size is exactly 1000 and the
written file is the synthetic placeholder document.  On the success path the
size equals the number of downloaded bytes, which is positive unless the
served document body is empty. -/
theorem C4_retriever_result_shape (env : FetchEnv) (ticker cik : String)
    (f : FilingRef) (ft : String) :
    ((download_filing env ticker cik f ft).result.date = f.date ∧
     (download_filing env ticker cik f ft).result.accession = f.accession ∧
     (download_filing env ticker cik f ft).result.path
        = cacheFilepath ticker ft f.date ∧
     (download_filing env ticker cik f ft).written_path
        = (download_filing env ticker cik f ft).result.path) ∧
    (∀ m, env.fetchIndex (f.url.getD (defaultIndexUrl cik f.accession)) = .error m →
       (download_filing env ticker cik f ft).result.size = 1000 ∧
       (download_filing env ticker cik f ft).written_content
          = placeholderError ticker ft f.date) ∧
    (∀ table, env.fetchIndex (f.url.getD (defaultIndexUrl cik f.accession)) = .ok table →
       table.bind (findDocLink ft) = none →
       (download_filing env ticker cik f ft).result.size = 1000 ∧
       (download_filing env ticker cik f ft).written_content
          = placeholderNoLink ticker ft) ∧
    (∀ table link m,
       env.fetchIndex (f.url.getD (defaultIndexUrl cik f.accession)) = .ok table →
       table.bind (findDocLink ft) = some link →
       env.fetchDoc (BASE_URL ++ link) = .error m →
       (download_filing env ticker cik f ft).result.size = 1000 ∧
       (download_filing env ticker cik f ft).written_content
          = placeholderError ticker ft f.date) ∧
    (∀ table link content,
       env.fetchIndex (f.url.getD (defaultIndexUrl cik f.accession)) = .ok table →
       table.bind (findDocLink ft) = some link →
       env.fetchDoc (BASE_URL ++ link) = .ok content →
       (download_filing env ticker cik f ft).result.size = content.length ∧
       (download_filing env ticker cik f ft).written_content = content ∧
       (download_filing env ticker cik f ft).result.url = BASE_URL ++ link) := by
  refine ⟨?_, ?_, ?_, ?_, ?_⟩
  · obtain ⟨p, w⟩ := download_filing_path env ticker cik f ft
    refine ⟨?_, ?_, p, by rw [w, p]⟩
    · unfold download_filing
      dsimp only
      repeat' split
      all_goals rfl
    · unfold download_filing
      dsimp only
      repeat' split
      all_goals rfl
  · intro m hm
    unfold download_filing
    dsimp only
    rw [hm]
    exact ⟨rfl, rfl⟩
  · intro table hok hnone
    unfold download_filing
    dsimp only
    rw [hok]
    dsimp only
    rw [hnone]
    exact ⟨rfl, rfl⟩
  · intro table link m hok hsome herr
    unfold download_filing
    dsimp only
    rw [hok]
    dsimp only
    rw [hsome]
    dsimp only
    rw [herr]
    exact ⟨rfl, rfl⟩
  · intro table link content hok hsome hget
    unfold download_filing
    dsimp only
    rw [hok]
    dsimp only
    rw [hsome]
    dsimp only
    rw [hget]
    exact ⟨rfl, rfl, rfl⟩

/-- Witness for C4: a retrieve call whose index fetch raises returns the
five-field record with size exactly 1000 and writes the synthetic placeholder
document. -/
theorem C4_retriever_result_shape_witness :
    (download_filing ⟨fun _ => .error "edgar down", fun _ => .error "edgar down"⟩
        "MSFT" "0000789019" ⟨"2024-07-30", "0000789019-24-000056", some "http://idx"⟩
        "10-K").result.size = 1000 ∧
    (download_filing ⟨fun _ => .error "edgar down", fun _ => .error "edgar down"⟩
        "MSFT" "0000789019" ⟨"2024-07-30", "0000789019-24-000056", some "http://idx"⟩
        "10-K").written_content = placeholderError "MSFT" "10-K" "2024-07-30" :=
  (C4_retriever_result_shape
      ⟨fun _ => .error "edgar down", fun _ => .error "edgar down"⟩
      "MSFT" "0000789019" ⟨"2024-07-30", "0000789019-24-000056", some "http://idx"⟩
      "10-K").2.1 "edgar down" rfl

/-! ### C6: feed parsing — cutoff, per-entry skipping, and ordering -/

/-- C6 counterexample.  The code sorts by the filing-date *string*, so a feed
whose dates are not zero-padded comes back out of chronological order: with
entries dated `2023-09-01` and `2023-1-5` (both parseable by `strptime`), the
returned list is not non-increasing by filing date — the January filing sorts
first because `'1' > '0'` as characters. -/
theorem C6_feed_sort_counterexample :
    ¬ List.Pairwise
        (fun a b => dateVal ((parseYMD b.date).getD (0, 0, 0))
            ≤ dateVal ((parseYMD a.date).getD (0, 0, 0)))
        (parse_atom_feed
          [⟨some "2023-09-01", some "0000320193-23-000001", none⟩,
           ⟨some "2023-1-5", some "0000320193-23-000002", none⟩] 0) := by
  decide

/-- C6 amended.  For every feed and lookback cutoff: (i) the result is sorted
non-increasing by the filing-date *string* (code-point order — this coincides
with chronological order whenever the feed's dates are zero-padded ISO dates,
but not in general, cf. the counterexample); (ii) every returned reference
has a parseable date whose value is at or after the cutoff and originates
from an entry carrying exactly its date, accession and URL — entries missing
a parseable date or an accession number are excluded, not defaulted; and
(iii) a skipped entry leaves the rest of the batch untouched. -/
theorem C6_feed_parse_cutoff_sorted (entries : List FeedEntry) (cutoff : Nat) :
    List.Sorted dateDesc (parse_atom_feed entries cutoff) ∧
    (∀ f ∈ parse_atom_feed entries cutoff,
       (∃ d, parseYMD f.date = some d ∧ cutoff ≤ dateVal d) ∧
       ∃ e ∈ entries, e.filing_date = some f.date ∧
         e.accession_number = some f.accession ∧ e.filing_href = f.url) ∧
    (∀ e, entryToFiling cutoff e = none →
       parse_atom_feed (e :: entries) cutoff = parse_atom_feed entries cutoff) := by
  refine ⟨List.sorted_insertionSort dateDesc _, ?_, ?_⟩
  · intro f hf
    rw [parse_atom_feed, List.mem_insertionSort] at hf
    obtain ⟨e, he, hfe⟩ := List.mem_filterMap.mp hf
    unfold entryToFiling at hfe
    split at hfe
    · exact absurd hfe (by simp)
    · rename_i ds hds
      split at hfe
      · exact absurd hfe (by simp)
      · rename_i d hd
        split at hfe
        · exact absurd hfe (by simp)
        · rename_i hcut
          split at hfe
          · exact absurd hfe (by simp)
          · rename_i acc hacc
            injection hfe with hfe
            subst hfe
            exact ⟨⟨d, hd, Nat.le_of_not_lt hcut⟩, e, he, hds, hacc, rfl⟩
  · intro e he
    unfold parse_atom_feed
    rw [List.filterMap_cons, he]

/-- Witness for C6 at a concrete feed: two well-formed entries (2023 and
2021) and one malformed entry; the parse of the well-formed feed is sorted,
its most recent reference satisfies the cutoff/origin property, and
prepending the malformed entry leaves the output unchanged. -/
theorem C6_feed_parse_cutoff_sorted_witness :
    List.Sorted dateDesc (parse_atom_feed
      [⟨some "2023-09-01", some "0000320193-23-000001", none⟩,
       ⟨some "2021-06-15", some "0000320193-21-000064", some "http://idx64"⟩] 0) ∧
    ((∃ d, parseYMD "2023-09-01" = some d ∧ 0 ≤ dateVal d) ∧
     ∃ e ∈ [(⟨some "2023-09-01", some "0000320193-23-000001", none⟩ : FeedEntry),
            ⟨some "2021-06-15", some "0000320193-21-000064", some "http://idx64"⟩],
       e.filing_date = some "2023-09-01" ∧
       e.accession_number = some "0000320193-23-000001" ∧ e.filing_href = none) ∧
    parse_atom_feed
        [⟨some "not-a-date", none, none⟩,
         ⟨some "2023-09-01", some "0000320193-23-000001", none⟩,
         ⟨some "2021-06-15", some "0000320193-21-000064", some "http://idx64"⟩] 0
      = parse_atom_feed
        [⟨some "2023-09-01", some "0000320193-23-000001", none⟩,
         ⟨some "2021-06-15", some "0000320193-21-000064", some "http://idx64"⟩] 0 := by
  obtain ⟨h1, h2, h3⟩ := C6_feed_parse_cutoff_sorted
    [⟨some "2023-09-01", some "0000320193-23-000001", none⟩,
     ⟨some "2021-06-15", some "0000320193-21-000064", some "http://idx64"⟩] 0
  exact ⟨h1,
    h2 ⟨"2023-09-01", "0000320193-23-000001", none⟩ (by decide),
    h3 ⟨some "not-a-date", none, none⟩ (by decide)⟩

/-! ### C10: `fetch_filings` result shape -/

/-- Folding dict assignments of `F ft` over the requested types: a key is
bound to its own `F` value when requested, and untouched otherwise. -/
theorem fetch_foldl_lookup {α : Type} (F : String → α) (types : List String) :
    ∀ (acc : List (String × α)) (t : String),
    ((types.foldl (fun a ft => dictUpdate a ft (F ft)) acc).lookup t)
      = if t ∈ types then some (F t) else acc.lookup t := by
  induction types with
  | nil => intro acc t; simp
  | cons f ts ih =>
    intro acc t
    simp only [List.foldl_cons]
    rw [ih]
    by_cases ht : t ∈ ts
    · simp [ht, List.mem_cons]
    · by_cases htf : t = f
      · subst htf
        simp [ht, lookup_dictUpdate_self, List.mem_cons]
      · simp [ht, htf, lookup_dictUpdate_ne _ _ _ _ htf, List.mem_cons]

/-- Folding dict assignments preserves key-inventory distinctness. -/
theorem fetch_foldl_keys_nodup {α : Type} (F : String → α) (types : List String) :
    ∀ (acc : List (String × α)), (acc.map Prod.fst).Nodup →
    (((types.foldl (fun a ft => dictUpdate a ft (F ft)) acc).map Prod.fst).Nodup) := by
  induction types with
  | nil => intro acc h; simpa using h
  | cons f ts ih =>
    intro acc h
    simp only [List.foldl_cons]
    apply ih
    rw [keys_dictUpdate]
    by_cases hs : (acc.lookup f).isSome
    · simpa [hs] using h
    · have hf : f ∉ acc.map Prod.fst := fun hmem =>
        hs ((lookup_isSome_iff_mem_keys acc f).mpr hmem)
      simp [hs, List.nodup_append, h, hf]

/-- C10.  `fetch_filings` (a total function — no exception escapes) returns a
dict with exactly one key per requested filing type (requested iff bound, and
no duplicate keys), each bound to a list; and when the whole category's index
query or feed parse raises, that category is bound to the *empty* list — no
synthetic placeholder documents are produced at this level. -/
theorem C10_fetch_filings_shape (env : FetchEnv)
    (feedOf : String → Except String (List FeedEntry)) (cutoff : Nat)
    (ticker cik : String) (types : List String) :
    (∀ t, ((fetch_filings env feedOf cutoff ticker cik types).lookup t).isSome = true
        ↔ t ∈ types) ∧
    ((fetch_filings env feedOf cutoff ticker cik types).map Prod.fst).Nodup ∧
    (∀ t m, t ∈ types → feedOf t = .error m →
       (fetch_filings env feedOf cutoff ticker cik types).lookup t = some []) := by
  refine ⟨?_, ?_, ?_⟩
  · intro t
    unfold fetch_filings
    rw [fetch_foldl_lookup (fun ft => fetch_filing_type env (feedOf ft) cutoff ticker cik ft)]
    by_cases ht : t ∈ types <;> simp [ht]
  · unfold fetch_filings
    exact fetch_foldl_keys_nodup
      (fun ft => fetch_filing_type env (feedOf ft) cutoff ticker cik ft) types [] (by simp)
  · intro t m ht hm
    unfold fetch_filings
    rw [fetch_foldl_lookup (fun ft => fetch_filing_type env (feedOf ft) cutoff ticker cik ft),
      if_pos ht]
    simp [fetch_filing_type, hm]

/-- Witness for C10: requesting `["10-K", "8-K"]` while every feed query
raises yields a dict binding `"10-K"` (requested iff bound), with distinct
keys, and the failed category bound to the empty list. -/
theorem C10_fetch_filings_shape_witness :
    (((fetch_filings ⟨fun _ => .error "x", fun _ => .error "x"⟩
        (fun _ => .error "edgar down") 0 "AAPL" "0000320193"
        ["10-K", "8-K"]).lookup "10-K").isSome = true
      ↔ "10-K" ∈ ["10-K", "8-K"]) ∧
    ((fetch_filings ⟨fun _ => .error "x", fun _ => .error "x"⟩
        (fun _ => .error "edgar down") 0 "AAPL" "0000320193"
        ["10-K", "8-K"]).map Prod.fst).Nodup ∧
    (fetch_filings ⟨fun _ => .error "x", fun _ => .error "x"⟩
        (fun _ => .error "edgar down") 0 "AAPL" "0000320193"
        ["10-K", "8-K"]).lookup "10-K" = some [] := by
  obtain ⟨h1, h2, h3⟩ := C10_fetch_filings_shape
    ⟨fun _ => .error "x", fun _ => .error "x"⟩
    (fun _ => .error "edgar down") 0 "AAPL" "0000320193" ["10-K", "8-K"]
  exact ⟨h1 "10-K", h2, h3 "10-K" "edgar down" (by decide) rfl⟩

end ActivistIntel
